import Mathlib

/-!
Shallow embedding of `node/adapter/netns.py` (calico-containers): host-side
network plumbing for container endpoints.  Each operation of the module is
modelled as a function producing the trace of externally visible actions it
performs (host commands issued, namespace scopes entered and exited) together
with its outcome: a normal return value or the first raised error.

Host commands are issued through three primitives mirroring Python's
`subprocess` module: `check_call` and `check_output` raise a
`CalledProcessError` when the command exits non-zero, while plain `call`
returns the exit status and therefore never raises.  Whether a given command
exits zero, and what a query command prints, is supplied by an environment
oracle `Env`, so every theorem quantifies over the behaviour of the host.
-/

/-- IP version of a `netaddr.IPAddress` value; `netaddr` only ever produces
version 4 or version 6 addresses. -/
inductive IPVersion : Type where
  | v4 : IPVersion
  | v6 : IPVersion
deriving DecidableEq, Repr

/-- The integer `ip.version` attribute of a `netaddr.IPAddress`. -/
def IPVersion.toNat : IPVersion → Nat
  | IPVersion.v4 => 4
  | IPVersion.v6 => 6

/-- A `netaddr.IPAddress`: its version and its string rendering (the text
`"%s" % ip` interpolates into commands). -/
structure IPAddr : Type where
  version : IPVersion
  addr : String
deriving DecidableEq, Repr

/-- A `netaddr.IPNetwork`: an address with an explicit prefix length. -/
structure IPNetwork : Type where
  version : IPVersion
  addr : String
  prefixlen : Nat
deriving DecidableEq, Repr

/-- Models `IPNetwork(IPAddress(ip))` from `netaddr`: converting a bare
address to a network yields that address with the full host mask, /32 for
IPv4 and /128 for IPv6. -/
def ipNetworkOfAddr (ip : IPAddr) : IPNetwork :=
  { version := ip.version, addr := ip.addr,
    prefixlen := match ip.version with
      | IPVersion.v4 => 32
      | IPVersion.v6 => 128 }

/-- The Python value passed as the `ip` argument of `set_up_endpoint`: either
an actual `netaddr.IPAddress` instance, or any other object (which the
`assert isinstance(ip, IPAddress)` guard rejects).  An address of an
unsupported version can only be such a non-`IPAddress` object, since
`netaddr` produces only version-4 and version-6 addresses. -/
inductive PyIPArg : Type where
  | ipAddress : IPAddr → PyIPArg
  | other : PyIPArg
deriving DecidableEq

/-- Modelled from the spec: the `Endpoint` record imported from
`datastore.py`, which is not part of the sources.  Per spec §3 it carries an
identifier, a lifecycle state, a hardware address, sets of IPv4/IPv6 network
prefixes and optional per-version gateways; the constructor
`Endpoint(ep_id=..., state=..., mac=...)` leaves the prefix sets empty and
the gateways unset. -/
structure Endpoint : Type where
  ep_id : String
  state : String
  mac : String
  ipv4_nets : List IPNetwork
  ipv6_nets : List IPNetwork
  ipv4_gateway : Option IPAddr
  ipv6_gateway : Option IPAddr
deriving DecidableEq, Repr

/-- How a host command was issued: via `subprocess.call` (exit status
returned, never raises), `subprocess.check_call` or `subprocess.check_output`
(both raise on non-zero exit). -/
inductive CmdKind : Type where
  | call : CmdKind
  | checkCall : CmdKind
  | checkOutput : CmdKind
deriving DecidableEq, Repr

/-- An externally visible action of the module: a host command issued in the
current namespace context, or entering / leaving a network namespace via the
`nsenter` context manager `Namespace(pid, net, proc)`. -/
inductive Event : Type where
  | cmd : CmdKind → String → Event
  | nsEnter : String → String → Event
  | nsExit : String → Event
deriving DecidableEq, Repr

/-- Errors the module can raise: the initial `assert` failing, a
`CalledProcessError` carrying the failed command, or a `KeyError` from the
`next_hop_ips[ip.version]` dictionary lookup. -/
inductive Err : Type where
  | assertionError : Err
  | calledProcessError : String → Err
  | keyError : Nat → Err
deriving DecidableEq, Repr

/-- The host environment: which command lines exit with status zero, and the
stdout captured by `check_output` for each command line. -/
structure Env : Type where
  ok : String → Bool
  out : String → String

/-- A run of a piece of the module: the trace of events it performs and
either its return value or the first error raised. -/
abbrev M (α : Type) : Type := List Event × Except Err α

/-- Sequencing with exception propagation: once a step raises, no later step
runs, but the trace of the steps already performed is kept. -/
def M.bind {α β : Type} (x : M α) (f : α → M β) : M β :=
  match x with
  | (t, Except.error e) => (t, Except.error e)
  | (t, Except.ok a) => (t ++ (f a).1, (f a).2)

/-- A pure step: no events, normal return. -/
def M.pure {α : Type} (a : α) : M α := ([], Except.ok a)

/-- Python `subprocess.call(c, shell=True)`: issues the command and returns
its exit status; a non-zero exit is NOT turned into an exception. -/
def call (_env : Env) (c : String) : M Unit :=
  ([Event.cmd CmdKind.call c], Except.ok ())

/-- Python `subprocess.check_call(c, shell=True)`: issues the command and
raises `CalledProcessError` when it exits non-zero. -/
def check_call (env : Env) (c : String) : M Unit :=
  ([Event.cmd CmdKind.checkCall c],
   if env.ok c then Except.ok ()
   else Except.error (Err.calledProcessError c))

/-- Python `subprocess.check_output(c, shell=True)`: issues the command and
returns its captured stdout, raising `CalledProcessError` on non-zero exit. -/
def check_output (env : Env) (c : String) : M String :=
  ([Event.cmd CmdKind.checkOutput c],
   if env.ok c then Except.ok (env.out c)
   else Except.error (Err.calledProcessError c))

/-- A `check_call` wrapped in `try: ... except CalledProcessError: pass`:
the command is issued but a failure is swallowed and execution continues. -/
def try_check_call (_env : Env) (c : String) : M Unit :=
  ([Event.cmd CmdKind.checkCall c], Except.ok ())

/-- The `with Namespace(pid, net, proc=p):` context manager from `nsenter`:
the body runs inside the target namespace, and the original namespace is
restored on every exit path, including when the body raises. -/
def withNamespace {α : Type} (pid proc : String) (body : M α) : M α :=
  (Event.nsEnter pid proc :: body.1 ++ [Event.nsExit pid], body.2)

/-- Source constant `VETH_NAME`: the default name given to the veth inside
the target container's namespace. -/
def VETH_NAME : String := "eth1"

/-- Source constant `ROOT_NETNS`: the pid of the root namespace. -/
def ROOT_NETNS : String := "1"

/-- Source constant `PREFIX_LEN = \x7b4: 32, 6: 128\x7d`: the prefix length to
assign, by IP version. -/
def PREFIX_LEN : IPVersion → Nat
  | IPVersion.v4 => 32
  | IPVersion.v6 => 128

/-- Source constant `PROC_ALIAS`: the default alias for /proc. -/
def PROC_ALIAS : String := "proc_host"

/-- Modelled from the spec: the fixed interface-name prefix `IF_PREFIX`
imported from `datastore.py`, which is not part of the sources; the spec
only says the host-side interface name is a fixed prefix concatenated with a
truncated endpoint identifier, so the concrete text of the prefix is taken
from the project's conventions.  No claim depends on its value. -/
def IF_PREFIX : String := "cali"

/-- Embedding of `remove_endpoint(ep_id)`: derives the host-side interface
name and deletes it via plain `call`, so the exit status of the delete
command is ignored. -/
def remove_endpoint (env : Env) (ep_id : String) : M Unit :=
  call env ("ip link delete " ++ ( IF_PREFIX ++ ep_id.take 11))

/-- Embedding of `add_ip_to_interface(container_pid, ip, interface_name)`:
inside the namespace named by `container_pid` (entered through the fixed
proc root "/proc_host"), add `ip` with the version-determined prefix length
to the interface. -/
def add_ip_to_interface (env : Env) (container_pid : String) (ip : IPAddr)
    (interface_name : String) : M Unit :=
  withNamespace container_pid "/proc_host"
    (check_call env ("ip -" ++ toString (IPVersion.toNat ip.version) ++
      " addr add " ++ ip.addr ++ "/" ++
      toString ( PREFIX_LEN ip.version) ++ " dev " ++ interface_name))

/-- Embedding of `remove_ip_from_interface(container_pid, ip,
interface_name)`: symmetric removal of the address. -/
def remove_ip_from_interface (env : Env) (container_pid : String) (ip : IPAddr)
    (interface_name : String) : M Unit :=
  withNamespace container_pid "/proc_host"
    (check_call env ("ip -" ++ toString (IPVersion.toNat ip.version) ++
      " addr del " ++ ip.addr ++ "/" ++
      toString ( PREFIX_LEN ip.version) ++ " dev " ++ interface_name))

/-- Embedding of `set_up_endpoint(ip, cpid, next_hop_ips, in_container,
veth_name, proc_alias)`.  The fresh identifier produced by `uuid.uuid1().hex`
is passed in as the oracle parameter `ep_id`; `next_hop_ips` is the
`\x7bversion: IPAddress\x7d` dictionary, keyed by the integer version.  The
Python defaults are `in_container=False`, `veth_name=VETH_NAME`,
`proc_alias=PROC_ALIAS`. -/
def set_up_endpoint (env : Env) (ip : PyIPArg) (cpid : String)
    (next_hop_ips : Nat → Option IPAddr) (in_container : Bool)
    (veth_name : String) (proc_alias : String) (ep_id : String) : M Endpoint :=
  match ip with
  | PyIPArg.other => ([], Except.error Err.assertionError)
  | PyIPArg.ipAddress ip =>
    let iface := IF_PREFIX ++ ep_id.take 11
    let iface_tmp := "tmp" ++ ep_id.take 11
    M.bind (check_call env "mkdir -p /var/run/netns") fun _ =>
    M.bind (check_call env ("ln -s /" ++ proc_alias ++ "/" ++ cpid ++
      "/ns/net /var/run/netns/" ++ cpid)) fun _ =>
    M.bind (if in_container then
        try_check_call env ("ln -s /" ++ proc_alias ++ "/" ++ ROOT_NETNS ++
          "/ns/net /var/run/netns/" ++ ROOT_NETNS)
      else M.pure ()) fun _ =>
    M.bind (check_output env "ls -l /var/run/netns") fun _ =>
    M.bind (check_call env ("ip link add " ++ iface ++
      " type veth peer name " ++ iface_tmp)) fun _ =>
    M.bind (check_call env ("ip link set " ++ iface ++ " up")) fun _ =>
    M.bind (check_call env ("ip link set " ++ iface_tmp ++ " netns " ++
      cpid)) fun _ =>
    M.bind (check_output env "ip link") fun _ =>
    M.bind (withNamespace cpid "/proc_host"
      (M.bind (check_call env ("ip link set dev " ++ iface_tmp ++ " name " ++
        veth_name)) fun _ =>
       check_call env ("ip link set " ++ veth_name ++ " up"))) fun _ =>
    M.bind (if in_container then
        M.bind (check_call env ("ip link set " ++ iface ++ " netns " ++
          ROOT_NETNS)) fun _ =>
        withNamespace ROOT_NETNS "/proc_host"
          (check_call env ("ip link set " ++ iface ++ " up"))
      else M.pure ()) fun _ =>
    M.bind (add_ip_to_interface env cpid ip veth_name) fun _ =>
    match next_hop_ips (IPVersion.toNat ip.version) with
    | none => ([], Except.error (Err.keyError (IPVersion.toNat ip.version)))
    | some next_hop =>
      M.bind (withNamespace cpid "/proc_host"
        (M.bind (check_call env ("ip -" ++ toString (IPVersion.toNat ip.version) ++
          " route replace " ++ next_hop.addr ++ " dev " ++ veth_name)) fun _ =>
         M.bind (check_call env ("ip -" ++ toString (IPVersion.toNat ip.version) ++
          " route replace default via " ++ next_hop.addr ++ " dev " ++
          veth_name)) fun _ =>
         M.bind (check_output env ("ip link show " ++ veth_name ++
          " | grep ether | awk \x27\x7bprint $2\x7d\x27")) fun raw =>
         M.pure raw.trim)) fun mac =>
      let network := ipNetworkOfAddr ip
      let ep0 : Endpoint :=
        { ep_id := ep_id, state := "active", mac := mac,
          ipv4_nets := [], ipv6_nets := [],
          ipv4_gateway := none, ipv6_gateway := none }
      M.pure (match network.version with
        | IPVersion.v4 =>
          { ep0 with ipv4_nets := ep0.ipv4_nets ++ [network],
                     ipv4_gateway := some next_hop }
        | IPVersion.v6 =>
          { ep0 with ipv6_nets := ep0.ipv6_nets ++ [network],
                     ipv6_gateway := some next_hop })

/-- Embedding of `ensure_namespace_named(container_pid)`.  The filesystem
argument `fs` models the set of paths for which `os.path.islink` is true; a
successful `ln -s` makes its destination such a path.  Returns the updated
set of links. -/
def ensure_namespace_named (env : Env) (fs : List String)
    (container_pid : String) : M (List String) :=
  if ("/var/run/netns/" ++ container_pid) ∈ fs then M.pure fs
  else
    M.bind (check_call env ("ln -s /proc/" ++ container_pid ++
      "/ns/net /var/run/netns/" ++ container_pid)) fun _ =>
    M.pure (("/var/run/netns/" ++ container_pid) :: fs)

/-- The full event trace of a successful `set_up_endpoint` run: every theorem
about a run that returns normally shows its trace equal to this list.  The
events appear in source order; the two blocks guarded by `in_container` are
the root-namespace registry link (step 4) and the relocation of the host-side
veth end into the root namespace (step 7). -/
def setUpTrace (ip : IPAddr) (cpid : String) (next_hop : IPAddr)
    (in_container : Bool) (veth_name : String) (proc_alias : String)
    (ep_id : String) : List Event :=
  let iface := IF_PREFIX ++ ep_id.take 11
  let iface_tmp := "tmp" ++ ep_id.take 11
  [Event.cmd CmdKind.checkCall "mkdir -p /var/run/netns",
   Event.cmd CmdKind.checkCall ("ln -s /" ++ proc_alias ++ "/" ++ cpid ++
     "/ns/net /var/run/netns/" ++ cpid)] ++
  (if in_container then
    [Event.cmd CmdKind.checkCall ("ln -s /" ++ proc_alias ++ "/" ++
      ROOT_NETNS ++ "/ns/net /var/run/netns/" ++ ROOT_NETNS)]
   else []) ++
  [Event.cmd CmdKind.checkOutput "ls -l /var/run/netns",
   Event.cmd CmdKind.checkCall ("ip link add " ++ iface ++
     " type veth peer name " ++ iface_tmp),
   Event.cmd CmdKind.checkCall ("ip link set " ++ iface ++ " up"),
   Event.cmd CmdKind.checkCall ("ip link set " ++ iface_tmp ++ " netns " ++
     cpid),
   Event.cmd CmdKind.checkOutput "ip link",
   Event.nsEnter cpid "/proc_host",
   Event.cmd CmdKind.checkCall ("ip link set dev " ++ iface_tmp ++ " name " ++
     veth_name),
   Event.cmd CmdKind.checkCall ("ip link set " ++ veth_name ++ " up"),
   Event.nsExit cpid] ++
  (if in_container then
    [Event.cmd CmdKind.checkCall ("ip link set " ++ iface ++ " netns " ++
      ROOT_NETNS),
     Event.nsEnter ROOT_NETNS "/proc_host",
     Event.cmd CmdKind.checkCall ("ip link set " ++ iface ++ " up"),
     Event.nsExit ROOT_NETNS]
   else []) ++
  [Event.nsEnter cpid "/proc_host",
   Event.cmd CmdKind.checkCall ("ip -" ++ toString (IPVersion.toNat ip.version) ++
     " addr add " ++ ip.addr ++ "/" ++ toString ( PREFIX_LEN ip.version) ++
     " dev " ++ veth_name),
   Event.nsExit cpid,
   Event.nsEnter cpid "/proc_host",
   Event.cmd CmdKind.checkCall ("ip -" ++ toString (IPVersion.toNat ip.version) ++
     " route replace " ++ next_hop.addr ++ " dev " ++ veth_name),
   Event.cmd CmdKind.checkCall ("ip -" ++ toString (IPVersion.toNat ip.version) ++
     " route replace default via " ++ next_hop.addr ++ " dev " ++ veth_name),
   Event.cmd CmdKind.checkOutput ("ip link show " ++ veth_name ++
     " | grep ether | awk \x27\x7bprint $2\x7d\x27"),
   Event.nsExit cpid]

/-- The Endpoint value a successful `set_up_endpoint` run returns, as a
function of the inputs and of the hardware address the environment printed
for the mac query. -/
def setUpResult (env : Env) (ip : IPAddr) (next_hop : IPAddr)
    (veth_name : String) (ep_id : String) : Endpoint :=
  let mac := (env.out ("ip link show " ++ veth_name ++
    " | grep ether | awk \x27\x7bprint $2\x7d\x27")).trim
  let network := ipNetworkOfAddr ip
  match ip.version with
  | IPVersion.v4 =>
    { ep_id := ep_id, state := "active", mac := mac,
      ipv4_nets := [network], ipv6_nets := [],
      ipv4_gateway := some next_hop, ipv6_gateway := none }
  | IPVersion.v6 =>
    { ep_id := ep_id, state := "active", mac := mac,
      ipv4_nets := [], ipv6_nets := [network],
      ipv4_gateway := none, ipv6_gateway := some next_hop }

/-- Models the effect of the host command `ip addr add A dev D` on the set of
addresses assigned to interface D (spec §4.4): adding a duplicate address
fails, otherwise the address is added. -/
def ipAddrAdd (s : List String) (x : String) : Option (List String) :=
  if x ∈ s then none else some (x :: s)

/-- Models the effect of the host command `ip addr del A dev D` on the set of
addresses assigned to interface D (spec §4.4): deleting an absent address
fails, otherwise the address is removed. -/
def ipAddrDel (s : List String) (x : String) : Option (List String) :=
  if x ∈ s then some (s.erase x) else none

/-- Whether an event is a namespace entry. -/
def isNsEnter : Event → Bool
  | Event.nsEnter _ _ => true
  | _ => false

/-- A fully cooperative host: every command exits zero and every query prints
a fixed hardware-address line. -/
def envAllOk : Env :=
  { ok := fun _ => true, out := fun _ => "aa:bb:cc:dd:ee:ff\n" }

/-- A host on which every command exits non-zero. -/
def envAllFail : Env :=
  { ok := fun _ => false, out := fun _ => "" }

/-- A host on which exactly one given command line exits non-zero and every
other command succeeds; used to model the world in which that one command's
precondition is violated. -/
def envFailOn (bad : String) : Env :=
  { ok := fun c => decide (c ≠ bad), out := fun _ => "aa:bb:cc:dd:ee:ff\n" }

/-- A run whose trace only ever enters namespaces through the fixed proc root
"/proc_host". -/
def TraceProcOnly {α : Type} (x : M α) : Prop :=
  ∀ p q, Event.nsEnter p q ∈ x.1 → q = "/proc_host"

/-- A concrete next-hop dictionary for witnesses: an IPv4 next hop only. -/
def nhV4 : Nat → Option IPAddr :=
  fun k => if k == 4 then some ⟨IPVersion.v4, "10.0.0.1"⟩ else none

theorem M.mem_bind_trace {α β : Type} {x : M α} {f : α → M β} {e : Event}
    (he : e ∈ (M.bind x f).1) : e ∈ x.1 ∨ ∃ a, e ∈ (f a).1 := by
  rcases x with ⟨t, r⟩
  cases r with
  | error err => exact Or.inl he
  | ok a =>
    rcases List.mem_append.mp he with h' | h'
    · exact Or.inl h'
    · exact Or.inr ⟨a, h'⟩

theorem tp_bind {α β : Type} {x : M α} {f : α → M β}
    (hx : TraceProcOnly x) (hf : ∀ a, TraceProcOnly (f a)) :
    TraceProcOnly (M.bind x f) := by
  intro p q hq
  rcases M.mem_bind_trace hq with h' | ⟨a, h'⟩
  · exact hx p q h'
  · exact hf a p q h'

theorem tp_check_call {env : Env} {c : String} :
    TraceProcOnly (check_call env c) := by
  intro p q hq
  simp [check_call] at hq

theorem tp_check_output {env : Env} {c : String} :
    TraceProcOnly (check_output env c) := by
  intro p q hq
  simp [check_output] at hq

theorem tp_try_check_call {env : Env} {c : String} :
    TraceProcOnly (try_check_call env c) := by
  intro p q hq
  simp [try_check_call] at hq

theorem tp_pure {α : Type} {a : α} : TraceProcOnly (M.pure a) := by
  intro p q hq
  simp [M.pure] at hq

theorem tp_ite {α : Type} {c : Bool} {x y : M α}
    (hx : TraceProcOnly x) (hy : TraceProcOnly y) :
    TraceProcOnly (if c then x else y) := by
  cases c
  · simpa using hy
  · simpa using hx

theorem tp_withNamespace {α : Type} {pid : String} {body : M α}
    (hb : TraceProcOnly body) :
    TraceProcOnly (withNamespace pid "/proc_host" body) := by
  intro p q hq
  simp [withNamespace] at hq
  rcases hq with ⟨h1, h2⟩ | h'
  · exact h2
  · exact hb p q h'

theorem tp_add_ip {env : Env} {p : String} {ip : IPAddr} {ifn : String} :
    TraceProcOnly (add_ip_to_interface env p ip ifn) :=
  tp_withNamespace tp_check_call

theorem setUp_ok_run (env : Env) (ip : IPAddr) (cpid : String)
    (nh : Nat → Option IPAddr) (inc : Bool) (vn pa eid : String) (ep : Endpoint)
    (h : (set_up_endpoint env (PyIPArg.ipAddress ip) cpid nh inc vn pa eid).2 =
      Except.ok ep) :
    ∃ next_hop, nh (IPVersion.toNat ip.version) = some next_hop ∧
      set_up_endpoint env (PyIPArg.ipAddress ip) cpid nh inc vn pa eid =
        (setUpTrace ip cpid next_hop inc vn pa eid,
         Except.ok (setUpResult env ip next_hop vn eid)) ∧
      ∀ k s, Event.cmd k s ∈ setUpTrace ip cpid next_hop inc vn pa eid →
        s ≠ "ln -s /" ++ pa ++ "/" ++ ROOT_NETNS ++ "/ns/net /var/run/netns/" ++
          ROOT_NETNS →
        env.ok s = true := by
  obtain ⟨v, a⟩ := ip
  cases inc with
  | false =>
    by_cases h1 : env.ok "mkdir -p /var/run/netns"
    swap
    · exact absurd h (by simp [set_up_endpoint, check_call, M.bind, h1])
    by_cases h2 : env.ok ("ln -s /" ++ pa ++ "/" ++ cpid ++
      "/ns/net /var/run/netns/" ++ cpid)
    swap
    · exact absurd h (by simp [set_up_endpoint, check_call, M.bind, h1, h2])
    by_cases h3 : env.ok "ls -l /var/run/netns"
    swap
    · exact absurd h (by
        simp [set_up_endpoint, check_call, check_output, M.bind, M.pure, h1, h2, h3])
    by_cases h4 : env.ok ("ip link add " ++ ( IF_PREFIX ++ eid.take 11) ++
      " type veth peer name " ++ ("tmp" ++ eid.take 11))
    swap
    · exact absurd h (by
        simp [set_up_endpoint, check_call, check_output, M.bind, M.pure, h1, h2, h3, h4])
    by_cases h5 : env.ok ("ip link set " ++ ( IF_PREFIX ++ eid.take 11) ++ " up")
    swap
    · exact absurd h (by
        simp [set_up_endpoint, check_call, check_output, M.bind, M.pure,
          h1, h2, h3, h4, h5])
    by_cases h6 : env.ok ("ip link set " ++ ("tmp" ++ eid.take 11) ++
      " netns " ++ cpid)
    swap
    · exact absurd h (by
        simp [set_up_endpoint, check_call, check_output, M.bind, M.pure,
          h1, h2, h3, h4, h5, h6])
    by_cases h7 : env.ok "ip link"
    swap
    · exact absurd h (by
        simp [set_up_endpoint, check_call, check_output, M.bind, M.pure,
          h1, h2, h3, h4, h5, h6, h7])
    by_cases h8 : env.ok ("ip link set dev " ++ ("tmp" ++ eid.take 11) ++
      " name " ++ vn)
    swap
    · exact absurd h (by
        simp [set_up_endpoint, check_call, check_output, withNamespace, M.bind, M.pure,
          h1, h2, h3, h4, h5, h6, h7, h8])
    by_cases h9 : env.ok ("ip link set " ++ vn ++ " up")
    swap
    · exact absurd h (by
        simp [set_up_endpoint, check_call, check_output, withNamespace, M.bind, M.pure,
          h1, h2, h3, h4, h5, h6, h7, h8, h9])
    by_cases h10 : env.ok ("ip -" ++ toString (IPVersion.toNat v) ++
      " addr add " ++ a ++ "/" ++ toString ( PREFIX_LEN v) ++ " dev " ++ vn)
    swap
    · exact absurd h (by
        simp [set_up_endpoint, add_ip_to_interface, check_call, check_output,
          withNamespace, M.bind, M.pure, h1, h2, h3, h4, h5, h6, h7, h8, h9, h10])
    cases hnh : nh (IPVersion.toNat v) with
    | none =>
      exact absurd h (by
        simp [set_up_endpoint, add_ip_to_interface, check_call, check_output,
          withNamespace, M.bind, M.pure, h1, h2, h3, h4, h5, h6, h7, h8, h9, h10, hnh])
    | some nhp =>
      by_cases h11 : env.ok ("ip -" ++ toString (IPVersion.toNat v) ++
        " route replace " ++ nhp.addr ++ " dev " ++ vn)
      swap
      · exact absurd h (by
          simp [set_up_endpoint, add_ip_to_interface, check_call, check_output,
            withNamespace, M.bind, M.pure,
            h1, h2, h3, h4, h5, h6, h7, h8, h9, h10, hnh, h11])
      by_cases h12 : env.ok ("ip -" ++ toString (IPVersion.toNat v) ++
        " route replace default via " ++ nhp.addr ++ " dev " ++ vn)
      swap
      · exact absurd h (by
          simp [set_up_endpoint, add_ip_to_interface, check_call, check_output,
            withNamespace, M.bind, M.pure,
            h1, h2, h3, h4, h5, h6, h7, h8, h9, h10, hnh, h11, h12])
      by_cases h13 : env.ok ("ip link show " ++ vn ++
        " | grep ether | awk \x27\x7bprint $2\x7d\x27")
      swap
      · exact absurd h (by
          simp [set_up_endpoint, add_ip_to_interface, check_call, check_output,
            withNamespace, M.bind, M.pure,
            h1, h2, h3, h4, h5, h6, h7, h8, h9, h10, hnh, h11, h12, h13])
      refine ⟨nhp, rfl, ?_, ?_⟩
      · cases v <;>
          simp [set_up_endpoint, setUpTrace, setUpResult, ipNetworkOfAddr,
            add_ip_to_interface, check_call, check_output, try_check_call,
            withNamespace, M.bind, M.pure,
            h1, h2, h3, h4, h5, h6, h7, h8, h9, h10, hnh, h11, h12, h13]
      · intro k s hs hne
        simp [setUpTrace] at hs
        rcases hs with h'|h'|h'|h'|h'|h'|h'|h'|h'|h'|h'|h'|h'|h'|h'|h'|h'|h'|h'|h'
        all_goals simp_all
  | true =>
    by_cases h1 : env.ok "mkdir -p /var/run/netns"
    swap
    · exact absurd h (by simp [set_up_endpoint, check_call, try_check_call, M.bind, h1])
    by_cases h2 : env.ok ("ln -s /" ++ pa ++ "/" ++ cpid ++
      "/ns/net /var/run/netns/" ++ cpid)
    swap
    · exact absurd h (by simp [set_up_endpoint, check_call, try_check_call, M.bind, h1, h2])
    by_cases h3 : env.ok "ls -l /var/run/netns"
    swap
    · exact absurd h (by
        simp [set_up_endpoint, check_call, check_output, try_check_call, M.bind, M.pure, h1, h2, h3])
    by_cases h4 : env.ok ("ip link add " ++ ( IF_PREFIX ++ eid.take 11) ++
      " type veth peer name " ++ ("tmp" ++ eid.take 11))
    swap
    · exact absurd h (by
        simp [set_up_endpoint, check_call, check_output, try_check_call, M.bind, M.pure, h1, h2, h3, h4])
    by_cases h5 : env.ok ("ip link set " ++ ( IF_PREFIX ++ eid.take 11) ++ " up")
    swap
    · exact absurd h (by
        simp [set_up_endpoint, check_call, check_output, try_check_call, M.bind, M.pure,
          h1, h2, h3, h4, h5])
    by_cases h6 : env.ok ("ip link set " ++ ("tmp" ++ eid.take 11) ++
      " netns " ++ cpid)
    swap
    · exact absurd h (by
        simp [set_up_endpoint, check_call, check_output, try_check_call, M.bind, M.pure,
          h1, h2, h3, h4, h5, h6])
    by_cases h7 : env.ok "ip link"
    swap
    · exact absurd h (by
        simp [set_up_endpoint, check_call, check_output, try_check_call, M.bind, M.pure,
          h1, h2, h3, h4, h5, h6, h7])
    by_cases h8 : env.ok ("ip link set dev " ++ ("tmp" ++ eid.take 11) ++
      " name " ++ vn)
    swap
    · exact absurd h (by
        simp [set_up_endpoint, check_call, check_output, try_check_call, withNamespace, M.bind, M.pure,
          h1, h2, h3, h4, h5, h6, h7, h8])
    by_cases h9 : env.ok ("ip link set " ++ vn ++ " up")
    swap
    · exact absurd h (by
        simp [set_up_endpoint, check_call, check_output, try_check_call, withNamespace, M.bind, M.pure,
          h1, h2, h3, h4, h5, h6, h7, h8, h9])
    by_cases h9b : env.ok ("ip link set " ++ ( IF_PREFIX ++ eid.take 11) ++
      " netns " ++ ROOT_NETNS)
    swap
    · exact absurd h (by
        simp [set_up_endpoint, check_call, check_output, try_check_call,
          withNamespace, M.bind, M.pure,
          h1, h2, h3, h4, h5, h6, h7, h8, h9, h9b])
    by_cases h10 : env.ok ("ip -" ++ toString (IPVersion.toNat v) ++
      " addr add " ++ a ++ "/" ++ toString ( PREFIX_LEN v) ++ " dev " ++ vn)
    swap
    · exact absurd h (by
        simp [set_up_endpoint, add_ip_to_interface, check_call, check_output, try_check_call,
          withNamespace, M.bind, M.pure, h1, h2, h3, h4, h5, h6, h7, h8, h9, h9b, h10])
    cases hnh : nh (IPVersion.toNat v) with
    | none =>
      exact absurd h (by
        simp [set_up_endpoint, add_ip_to_interface, check_call, check_output, try_check_call,
          withNamespace, M.bind, M.pure, h1, h2, h3, h4, h5, h6, h7, h8, h9, h9b, h10, hnh])
    | some nhp =>
      by_cases h11 : env.ok ("ip -" ++ toString (IPVersion.toNat v) ++
        " route replace " ++ nhp.addr ++ " dev " ++ vn)
      swap
      · exact absurd h (by
          simp [set_up_endpoint, add_ip_to_interface, check_call, check_output, try_check_call,
            withNamespace, M.bind, M.pure,
            h1, h2, h3, h4, h5, h6, h7, h8, h9, h9b, h10, hnh, h11])
      by_cases h12 : env.ok ("ip -" ++ toString (IPVersion.toNat v) ++
        " route replace default via " ++ nhp.addr ++ " dev " ++ vn)
      swap
      · exact absurd h (by
          simp [set_up_endpoint, add_ip_to_interface, check_call, check_output, try_check_call,
            withNamespace, M.bind, M.pure,
            h1, h2, h3, h4, h5, h6, h7, h8, h9, h9b, h10, hnh, h11, h12])
      by_cases h13 : env.ok ("ip link show " ++ vn ++
        " | grep ether | awk \x27\x7bprint $2\x7d\x27")
      swap
      · exact absurd h (by
          simp [set_up_endpoint, add_ip_to_interface, check_call, check_output, try_check_call,
            withNamespace, M.bind, M.pure,
            h1, h2, h3, h4, h5, h6, h7, h8, h9, h9b, h10, hnh, h11, h12, h13])
      refine ⟨nhp, rfl, ?_, ?_⟩
      · cases v <;>
          simp [set_up_endpoint, setUpTrace, setUpResult, ipNetworkOfAddr,
            add_ip_to_interface, check_call, check_output, try_check_call,
            withNamespace, M.bind, M.pure,
            h1, h2, h3, h4, h5, h6, h7, h8, h9, h9b, h10, hnh, h11, h12, h13]
      · intro k s hs hne
        simp [setUpTrace] at hs
        rcases hs with h'|h'|h'|h'|h'|h'|h'|h'|h'|h'|h'|h'|h'|h'|h'|h'|h'|h'|h'|h'|h'|h'|h'|h'|h'
        all_goals simp_all


theorem setUp_TraceProcOnly (env : Env) (ipArg : PyIPArg) (cpid : String)
    (nh : Nat → Option IPAddr) (inc : Bool) (vn pa eid : String) :
    TraceProcOnly (set_up_endpoint env ipArg cpid nh inc vn pa eid) := by
  cases ipArg with
  | other =>
    intro p q hq
    simp [set_up_endpoint] at hq
  | ipAddress ip =>
    simp only [set_up_endpoint]
    refine tp_bind tp_check_call fun _ => ?_
    refine tp_bind tp_check_call fun _ => ?_
    refine tp_bind (tp_ite tp_try_check_call tp_pure) fun _ => ?_
    refine tp_bind tp_check_output fun _ => ?_
    refine tp_bind tp_check_call fun _ => ?_
    refine tp_bind tp_check_call fun _ => ?_
    refine tp_bind tp_check_call fun _ => ?_
    refine tp_bind tp_check_output fun _ => ?_
    refine tp_bind
      (tp_withNamespace (tp_bind tp_check_call fun _ => tp_check_call)) fun _ => ?_
    refine tp_bind
      (tp_ite (tp_bind tp_check_call fun _ => tp_withNamespace tp_check_call)
        tp_pure) fun _ => ?_
    refine tp_bind tp_add_ip fun _ => ?_
    cases hnh : nh (IPVersion.toNat ip.version) with
    | none =>
      intro p q hq
      simp at hq
    | some nhp =>
      exact tp_bind
        (tp_withNamespace (tp_bind tp_check_call fun _ =>
          tp_bind tp_check_call fun _ =>
          tp_bind tp_check_output fun _ => tp_pure)) fun _ => tp_pure

/-- C2 counterexample: a valid address whose version is absent from
`next_hop_ips` is an invalid input, but its failure is NOT detected before
any host command is issued: with `next_hop_ips` empty, the run raises the
`KeyError` of the `next_hop_ips[ip.version]` lookup (netns.py line 188) only
after the registry link, the whole veth creation / relocation / rename
sequence and the address assignment have already issued their commands — the
veth-creation and address-assignment commands are in the trace, so host and
namespace state was modified before the failure was raised. -/
theorem missing_next_hop_raises_after_commands_cex :
    (set_up_endpoint envAllOk (PyIPArg.ipAddress ⟨IPVersion.v4, "10.0.0.5"⟩)
      "1234" (fun _ => none) false "eth1" "proc_host" "0123456789abcdef").2 =
      Except.error (Err.keyError 4) ∧
    Event.cmd CmdKind.checkCall
      "ip link add cali0123456789a type veth peer name tmp0123456789a" ∈
      (set_up_endpoint envAllOk (PyIPArg.ipAddress ⟨IPVersion.v4, "10.0.0.5"⟩)
        "1234" (fun _ => none) false "eth1" "proc_host" "0123456789abcdef").1 ∧
    Event.cmd CmdKind.checkCall "ip -4 addr add 10.0.0.5/32 dev eth1" ∈
      (set_up_endpoint envAllOk (PyIPArg.ipAddress ⟨IPVersion.v4, "10.0.0.5"⟩)
        "1234" (fun _ => none) false "eth1" "proc_host" "0123456789abcdef").1 :=
  ⟨rfl, by decide, by decide⟩

/-- C2 amended: only the non-`IPAddress` precondition — the `assert` that is
the first statement of `set_up_endpoint`, and the only way an address of an
unsupported version can be presented — is detected and raised before any host
command is issued: that run raises the assertion error with an empty event
trace, so no command runs, no namespace is entered, and no host or namespace
state is modified.  A valid address whose version is missing from
`next_hop_ips`, also an invalid input, is detected only at the
`next_hop_ips[ip.version]` lookup: when the issued commands succeed, the run
raises `KeyError` with the registry links, the complete veth
creation / relocation / rename sequence and the address assignment already in
its trace. -/
theorem precondition_detection_amended :
    (∀ (env : Env) (cpid : String) (nh : Nat → Option IPAddr) (inc : Bool)
       (vn pa eid : String),
      set_up_endpoint env PyIPArg.other cpid nh inc vn pa eid =
        ([], Except.error Err.assertionError)) ∧
    (∀ (env : Env) (ip : IPAddr) (cpid : String) (nh : Nat → Option IPAddr)
       (inc : Bool) (vn pa eid : String),
      (∀ s, env.ok s = true) →
      nh (IPVersion.toNat ip.version) = none →
      set_up_endpoint env (PyIPArg.ipAddress ip) cpid nh inc vn pa eid =
        ([Event.cmd CmdKind.checkCall "mkdir -p /var/run/netns",
          Event.cmd CmdKind.checkCall ("ln -s /" ++ pa ++ "/" ++ cpid ++
            "/ns/net /var/run/netns/" ++ cpid)] ++
         (if inc then
           [Event.cmd CmdKind.checkCall ("ln -s /" ++ pa ++ "/" ++ ROOT_NETNS ++
             "/ns/net /var/run/netns/" ++ ROOT_NETNS)]
          else []) ++
         [Event.cmd CmdKind.checkOutput "ls -l /var/run/netns",
          Event.cmd CmdKind.checkCall ("ip link add " ++ ( IF_PREFIX ++ eid.take 11) ++
            " type veth peer name " ++ ("tmp" ++ eid.take 11)),
          Event.cmd CmdKind.checkCall ("ip link set " ++ ( IF_PREFIX ++ eid.take 11) ++
            " up"),
          Event.cmd CmdKind.checkCall ("ip link set " ++ ("tmp" ++ eid.take 11) ++
            " netns " ++ cpid),
          Event.cmd CmdKind.checkOutput "ip link",
          Event.nsEnter cpid "/proc_host",
          Event.cmd CmdKind.checkCall ("ip link set dev " ++ ("tmp" ++ eid.take 11) ++
            " name " ++ vn),
          Event.cmd CmdKind.checkCall ("ip link set " ++ vn ++ " up"),
          Event.nsExit cpid] ++
         (if inc then
           [Event.cmd CmdKind.checkCall ("ip link set " ++ ( IF_PREFIX ++ eid.take 11) ++
             " netns " ++ ROOT_NETNS),
            Event.nsEnter ROOT_NETNS "/proc_host",
            Event.cmd CmdKind.checkCall ("ip link set " ++ ( IF_PREFIX ++ eid.take 11) ++
              " up"),
            Event.nsExit ROOT_NETNS]
          else []) ++
         [Event.nsEnter cpid "/proc_host",
          Event.cmd CmdKind.checkCall ("ip -" ++ toString (IPVersion.toNat ip.version) ++
            " addr add " ++ ip.addr ++ "/" ++ toString ( PREFIX_LEN ip.version) ++
            " dev " ++ vn),
          Event.nsExit cpid],
         Except.error (Err.keyError (IPVersion.toNat ip.version)))) := by
  constructor
  · intro env cpid nh inc vn pa eid
    rfl
  · intro env ip cpid nh inc vn pa eid hok hnh
    cases inc <;>
      simp [set_up_endpoint, add_ip_to_interface, check_call, check_output,
        try_check_call, withNamespace, M.bind, M.pure, hok, hnh]

theorem precondition_detection_amended_witness :
    set_up_endpoint envAllOk PyIPArg.other "1234" nhV4 false "eth1" "proc_host"
      "0123456789abcdef" = ([], Except.error Err.assertionError) ∧
    set_up_endpoint envAllOk (PyIPArg.ipAddress ⟨IPVersion.v4, "10.0.0.5"⟩)
      "1234" (fun _ => none) false "eth1" "proc_host" "0123456789abcdef" =
      ([Event.cmd CmdKind.checkCall "mkdir -p /var/run/netns",
        Event.cmd CmdKind.checkCall "ln -s /proc_host/1234/ns/net /var/run/netns/1234",
        Event.cmd CmdKind.checkOutput "ls -l /var/run/netns",
        Event.cmd CmdKind.checkCall
          "ip link add cali0123456789a type veth peer name tmp0123456789a",
        Event.cmd CmdKind.checkCall "ip link set cali0123456789a up",
        Event.cmd CmdKind.checkCall "ip link set tmp0123456789a netns 1234",
        Event.cmd CmdKind.checkOutput "ip link",
        Event.nsEnter "1234" "/proc_host",
        Event.cmd CmdKind.checkCall "ip link set dev tmp0123456789a name eth1",
        Event.cmd CmdKind.checkCall "ip link set eth1 up",
        Event.nsExit "1234",
        Event.nsEnter "1234" "/proc_host",
        Event.cmd CmdKind.checkCall "ip -4 addr add 10.0.0.5/32 dev eth1",
        Event.nsExit "1234"],
       Except.error (Err.keyError 4)) :=
  ⟨precondition_detection_amended.1 envAllOk "1234" nhV4 false "eth1" "proc_host"
     "0123456789abcdef",
   precondition_detection_amended.2 envAllOk ⟨IPVersion.v4, "10.0.0.5"⟩ "1234"
     (fun _ => none) false "eth1" "proc_host" "0123456789abcdef"
     (fun _ => rfl) rfl⟩

/-- C6: for every call to `add_ip_to_interface` and
`remove_ip_from_interface`, the prefix length attached to the address in the
issued command is ` PREFIX_LEN` of the address's version — exactly 32 for
IPv4 and exactly 128 for IPv6 — regardless of any other data associated with
the address. -/
theorem prefix_length_per_version (env : Env) (p : String) (ip : IPAddr)
    (ifn : String) :
    PREFIX_LEN IPVersion.v4 = 32 ∧ PREFIX_LEN IPVersion.v6 = 128 ∧
    (add_ip_to_interface env p ip ifn).1 =
      [Event.nsEnter p "/proc_host",
       Event.cmd CmdKind.checkCall ("ip -" ++ toString (IPVersion.toNat ip.version) ++
         " addr add " ++ ip.addr ++ "/" ++ toString ( PREFIX_LEN ip.version) ++
         " dev " ++ ifn),
       Event.nsExit p] ∧
    (remove_ip_from_interface env p ip ifn).1 =
      [Event.nsEnter p "/proc_host",
       Event.cmd CmdKind.checkCall ("ip -" ++ toString (IPVersion.toNat ip.version) ++
         " addr del " ++ ip.addr ++ "/" ++ toString ( PREFIX_LEN ip.version) ++
         " dev " ++ ifn),
       Event.nsExit p] :=
  ⟨rfl, rfl, rfl, rfl⟩

/-- C8: for both supported address versions, `add_ip_to_interface` followed
by `remove_ip_from_interface` with the same namespace handle, address and
interface name issues exactly symmetric add/del commands with identical
address, prefix length and device, and — under the modelled semantics of the
host address commands — leaves the interface's address set unchanged from
before the add was called. -/
theorem assign_unassign_round_trip (env : Env) (p : String) (ip : IPAddr)
    (ifn : String) (s : List String)
    (h : (ip.addr ++ "/" ++ toString ( PREFIX_LEN ip.version)) ∉ s) :
    (add_ip_to_interface env p ip ifn).1 =
      [Event.nsEnter p "/proc_host",
       Event.cmd CmdKind.checkCall ("ip -" ++ toString (IPVersion.toNat ip.version) ++
         " addr add " ++ ip.addr ++ "/" ++ toString ( PREFIX_LEN ip.version) ++
         " dev " ++ ifn),
       Event.nsExit p] ∧
    (remove_ip_from_interface env p ip ifn).1 =
      [Event.nsEnter p "/proc_host",
       Event.cmd CmdKind.checkCall ("ip -" ++ toString (IPVersion.toNat ip.version) ++
         " addr del " ++ ip.addr ++ "/" ++ toString ( PREFIX_LEN ip.version) ++
         " dev " ++ ifn),
       Event.nsExit p] ∧
    Option.bind (ipAddrAdd s (ip.addr ++ "/" ++ toString ( PREFIX_LEN ip.version)))
      (fun s2 => ipAddrDel s2 (ip.addr ++ "/" ++ toString ( PREFIX_LEN ip.version))) =
      some s := by
  refine ⟨rfl, rfl, ?_⟩
  simp [ipAddrAdd, ipAddrDel, h]

theorem assign_unassign_round_trip_witness :
    (add_ip_to_interface envAllOk "7" ⟨IPVersion.v4, "10.0.0.5"⟩ "eth1").1 =
      [Event.nsEnter "7" "/proc_host",
       Event.cmd CmdKind.checkCall "ip -4 addr add 10.0.0.5/32 dev eth1",
       Event.nsExit "7"] ∧
    (remove_ip_from_interface envAllOk "7" ⟨IPVersion.v4, "10.0.0.5"⟩ "eth1").1 =
      [Event.nsEnter "7" "/proc_host",
       Event.cmd CmdKind.checkCall "ip -4 addr del 10.0.0.5/32 dev eth1",
       Event.nsExit "7"] ∧
    Option.bind (ipAddrAdd [] "10.0.0.5/32") (fun s2 => ipAddrDel s2 "10.0.0.5/32") =
      some [] :=
  assign_unassign_round_trip envAllOk "7" ⟨IPVersion.v4, "10.0.0.5"⟩ "eth1" []
    (by decide)

/-- C7: `ensure_namespace_named` is idempotent: starting from a registry
without a link for `pid`, the first call issues the link-creation command and
(when it succeeds) registers exactly one symbolic link for `pid`; the second
call issues no command, raises no error and leaves the registry unchanged.
It only raises on the first call, when the underlying link creation fails. -/
theorem ensure_namespace_named_idempotent (env : Env) (fs : List String)
    (pid : String)
    (h1 : ("/var/run/netns/" ++ pid) ∉ fs)
    (h2 : env.ok ("ln -s /proc/" ++ pid ++ "/ns/net /var/run/netns/" ++ pid) = true) :
    ensure_namespace_named env fs pid =
      ([Event.cmd CmdKind.checkCall ("ln -s /proc/" ++ pid ++
          "/ns/net /var/run/netns/" ++ pid)],
       Except.ok (("/var/run/netns/" ++ pid) :: fs)) ∧
    ensure_namespace_named env (("/var/run/netns/" ++ pid) :: fs) pid =
      ([], Except.ok (("/var/run/netns/" ++ pid) :: fs)) ∧
    (("/var/run/netns/" ++ pid) :: fs).count ("/var/run/netns/" ++ pid) = 1 := by
  refine ⟨?_, ?_, ?_⟩
  · simp [ensure_namespace_named, h1, h2, M.bind, M.pure, check_call]
  · simp [ensure_namespace_named, M.pure]
  · rw [List.count_cons_self, List.count_eq_zero.mpr h1]

theorem ensure_namespace_named_idempotent_witness :
    ensure_namespace_named envAllOk [] "99" =
      ([Event.cmd CmdKind.checkCall "ln -s /proc/99/ns/net /var/run/netns/99"],
       Except.ok ["/var/run/netns/99"]) ∧
    ensure_namespace_named envAllOk ["/var/run/netns/99"] "99" =
      ([], Except.ok ["/var/run/netns/99"]) ∧
    (["/var/run/netns/99"] : List String).count "/var/run/netns/99" = 1 :=
  ensure_namespace_named_idempotent envAllOk [] "99" (by decide) rfl

/-- C1 counterexample: on a host where the interface has already been
deleted, the delete command issued by `remove_endpoint` exits non-zero, yet
`remove_endpoint` returns normally — the failure is silently swallowed
because the source uses plain `subprocess.call`.  This refutes the claim that
a second `remove_endpoint` raises a command failure and that every
host-command failure is propagated. -/
theorem remove_endpoint_swallows_failure_cex :
    envAllFail.ok ("ip link delete " ++ ( IF_PREFIX ++ "0123456789a")) = false ∧
    remove_endpoint envAllFail "0123456789abcdef" =
      ([Event.cmd CmdKind.call ("ip link delete " ++ ( IF_PREFIX ++ "0123456789a"))],
       Except.ok ()) :=
  ⟨rfl, rfl⟩

/-- C3 counterexample: when the registry symbolic link for the target
namespace already exists, the `ln -s` of step 3 (issued with no `-f` flag)
exits non-zero; since it runs under `check_call` with no try/except, step 3
raises a command failure and provisioning stops before the veth-creation
steps — refuting the claim that an already-existing symlink is tolerated.
The environment here makes exactly that one command fail, modelling the
already-exists world. -/
theorem step3_existing_link_raises_cex :
    set_up_endpoint (envFailOn "ln -s /proc_host/4321/ns/net /var/run/netns/4321")
      (PyIPArg.ipAddress ⟨IPVersion.v4, "10.0.0.5"⟩) "4321" nhV4 false "eth1"
      "proc_host" "0123456789abcdef" =
      ([Event.cmd CmdKind.checkCall "mkdir -p /var/run/netns",
        Event.cmd CmdKind.checkCall "ln -s /proc_host/4321/ns/net /var/run/netns/4321"],
       Except.error (Err.calledProcessError
         "ln -s /proc_host/4321/ns/net /var/run/netns/4321")) := rfl

/-- C3 amended: step 3 does NOT tolerate an already-existing registry
symlink.  The step-3 link creation runs under `check_call` with no
try/except, so whenever that `ln -s` command fails — as it does when
/var/run/netns/(cpid) already exists — `set_up_endpoint` raises the command
failure and stops: the trace contains only the mkdir and the failed link
command, and no veth step is reached.  Only the root-namespace link of step 4
is tolerant. -/
theorem step3_link_failure_propagates (env : Env) (ip : IPAddr) (cpid : String)
    (nh : Nat → Option IPAddr) (inc : Bool) (vn pa eid : String)
    (h1 : env.ok "mkdir -p /var/run/netns" = true)
    (h2 : env.ok ("ln -s /" ++ pa ++ "/" ++ cpid ++
      "/ns/net /var/run/netns/" ++ cpid) = false) :
    set_up_endpoint env (PyIPArg.ipAddress ip) cpid nh inc vn pa eid =
      ([Event.cmd CmdKind.checkCall "mkdir -p /var/run/netns",
        Event.cmd CmdKind.checkCall ("ln -s /" ++ pa ++ "/" ++ cpid ++
          "/ns/net /var/run/netns/" ++ cpid)],
       Except.error (Err.calledProcessError ("ln -s /" ++ pa ++ "/" ++ cpid ++
         "/ns/net /var/run/netns/" ++ cpid))) := by
  simp [set_up_endpoint, check_call, M.bind, h1, h2]

theorem step3_link_failure_propagates_witness :
    set_up_endpoint (envFailOn "ln -s /proc_host/77/ns/net /var/run/netns/77")
      (PyIPArg.ipAddress ⟨IPVersion.v4, "10.0.0.5"⟩) "77" nhV4 false "eth1"
      "proc_host" "abc" =
      ([Event.cmd CmdKind.checkCall "mkdir -p /var/run/netns",
        Event.cmd CmdKind.checkCall "ln -s /proc_host/77/ns/net /var/run/netns/77"],
       Except.error (Err.calledProcessError
         "ln -s /proc_host/77/ns/net /var/run/netns/77")) :=
  step3_link_failure_propagates
    (envFailOn "ln -s /proc_host/77/ns/net /var/run/netns/77")
    ⟨IPVersion.v4, "10.0.0.5"⟩ "77" nhV4 false "eth1" "proc_host" "abc"
    (by decide) (by decide)

/-- C1 amended: every failure of a command issued through `check_call` or
`check_output` is propagated to the caller, with the root-namespace link
creation performed when `in_container` is true as the only tolerated
exception; `remove_endpoint`, however, issues its delete through plain
`call`, which ignores the exit status, so removing an endpoint never raises —
in particular a second removal after the interface is gone does NOT raise a
command failure; its failure is the one silently swallowed case. -/
theorem error_propagation_amended :
    (∀ (env : Env) (eid : String),
      remove_endpoint env eid =
        ([Event.cmd CmdKind.call ("ip link delete " ++ ( IF_PREFIX ++ eid.take 11))],
         Except.ok ())) ∧
    (∀ (env : Env) (p : String) (ip : IPAddr) (ifn : String),
      env.ok ("ip -" ++ toString (IPVersion.toNat ip.version) ++ " addr add " ++
        ip.addr ++ "/" ++ toString ( PREFIX_LEN ip.version) ++ " dev " ++ ifn) = false →
      (add_ip_to_interface env p ip ifn).2 =
        Except.error (Err.calledProcessError ("ip -" ++
          toString (IPVersion.toNat ip.version) ++ " addr add " ++ ip.addr ++ "/" ++
          toString ( PREFIX_LEN ip.version) ++ " dev " ++ ifn))) ∧
    (∀ (env : Env) (p : String) (ip : IPAddr) (ifn : String),
      env.ok ("ip -" ++ toString (IPVersion.toNat ip.version) ++ " addr del " ++
        ip.addr ++ "/" ++ toString ( PREFIX_LEN ip.version) ++ " dev " ++ ifn) = false →
      (remove_ip_from_interface env p ip ifn).2 =
        Except.error (Err.calledProcessError ("ip -" ++
          toString (IPVersion.toNat ip.version) ++ " addr del " ++ ip.addr ++ "/" ++
          toString ( PREFIX_LEN ip.version) ++ " dev " ++ ifn))) ∧
    (∀ (env : Env) (ip : IPAddr) (cpid : String) (nh : Nat → Option IPAddr)
       (inc : Bool) (vn pa eid : String) (ep : Endpoint),
      (set_up_endpoint env (PyIPArg.ipAddress ip) cpid nh inc vn pa eid).2 =
        Except.ok ep →
      ∀ k s, Event.cmd k s ∈
          (set_up_endpoint env (PyIPArg.ipAddress ip) cpid nh inc vn pa eid).1 →
        s ≠ "ln -s /" ++ pa ++ "/" ++ ROOT_NETNS ++ "/ns/net /var/run/netns/" ++
          ROOT_NETNS →
        env.ok s = true) := by
  refine ⟨fun env eid => rfl, ?_, ?_, ?_⟩
  · intro env p ip ifn hbad
    simp [add_ip_to_interface, withNamespace, check_call, hbad]
  · intro env p ip ifn hbad
    simp [remove_ip_from_interface, withNamespace, check_call, hbad]
  · intro env ip cpid nh inc vn pa eid ep h k s hs hne
    obtain ⟨nhp, hnh, hrun, hmem⟩ := setUp_ok_run env ip cpid nh inc vn pa eid ep h
    rw [hrun] at hs
    exact hmem k s hs hne

theorem error_propagation_amended_witness :
    remove_endpoint envAllOk "0123456789abcdef" =
      ([Event.cmd CmdKind.call "ip link delete cali0123456789a"], Except.ok ()) ∧
    envAllOk.ok "mkdir -p /var/run/netns" = true :=
  ⟨error_propagation_amended.1 envAllOk "0123456789abcdef",
   error_propagation_amended.2.2.2 envAllOk ⟨IPVersion.v4, "10.0.0.5"⟩ "1234" nhV4
     false "eth1" "proc_host" "0123456789abcdef"
     (setUpResult envAllOk ⟨IPVersion.v4, "10.0.0.5"⟩ ⟨IPVersion.v4, "10.0.0.1"⟩
       "eth1" "0123456789abcdef")
     rfl CmdKind.checkCall "mkdir -p /var/run/netns" (by decide) (by decide)⟩

/-- C4: every successful run of `set_up_endpoint` returns an Endpoint with
state "active", the queried (and stripped) hardware address as its mac, and —
according to the address's version — exactly the network address/32 in
`ipv4_nets` with `ipv4_gateway` equal to the next hop for version 4, or
address/128 in `ipv6_nets` with `ipv6_gateway` equal to the next hop for
version 6, the prefix set and gateway of the other version left empty and
unset; and the assembly step issues no further commands: after the hardware
address query, the only remaining event is leaving the namespace scope. -/
theorem endpoint_assembly (env : Env) (ip : IPAddr) (cpid : String)
    (nh : Nat → Option IPAddr) (inc : Bool) (vn pa eid : String) (ep : Endpoint)
    (h : (set_up_endpoint env (PyIPArg.ipAddress ip) cpid nh inc vn pa eid).2 =
      Except.ok ep) :
    ep.ep_id = eid ∧
    ep.state = "active" ∧
    ep.mac = (env.out ("ip link show " ++ vn ++
      " | grep ether | awk \x27\x7bprint $2\x7d\x27")).trim ∧
    (ip.version = IPVersion.v4 →
      ep.ipv4_nets = [{ version := IPVersion.v4, addr := ip.addr, prefixlen := 32 }] ∧
      ep.ipv4_gateway = nh 4 ∧ ep.ipv6_nets = [] ∧ ep.ipv6_gateway = none) ∧
    (ip.version = IPVersion.v6 →
      ep.ipv6_nets = [{ version := IPVersion.v6, addr := ip.addr, prefixlen := 128 }] ∧
      ep.ipv6_gateway = nh 6 ∧ ep.ipv4_nets = [] ∧ ep.ipv4_gateway = none) ∧
    ∃ t, (set_up_endpoint env (PyIPArg.ipAddress ip) cpid nh inc vn pa eid).1 =
      t ++ [Event.cmd CmdKind.checkOutput ("ip link show " ++ vn ++
              " | grep ether | awk \x27\x7bprint $2\x7d\x27"),
            Event.nsExit cpid] := by
  obtain ⟨v, a⟩ := ip
  obtain ⟨nhp, hnh, hrun, hmem⟩ := setUp_ok_run env ⟨v, a⟩ cpid nh inc vn pa eid ep h
  have hep : ep = setUpResult env ⟨v, a⟩ nhp vn eid := by
    rw [hrun] at h
    exact ((Except.ok.injEq _ _).mp h).symm
  subst hep
  simp only [IPVersion.toNat] at hnh
  refine ⟨?_, ?_, ?_, ?_, ?_, ?_⟩
  · cases v <;> simp [setUpResult]
  · cases v <;> simp [setUpResult]
  · cases v <;> simp [setUpResult]
  · intro hv
    simp only at hv
    subst hv
    simp only [IPVersion.toNat] at hnh
    simp [setUpResult, ipNetworkOfAddr, hnh]
  · intro hv
    simp only at hv
    subst hv
    simp only [IPVersion.toNat] at hnh
    simp [setUpResult, ipNetworkOfAddr, hnh]
  · refine ⟨[Event.cmd CmdKind.checkCall "mkdir -p /var/run/netns",
      Event.cmd CmdKind.checkCall ("ln -s /" ++ pa ++ "/" ++ cpid ++
        "/ns/net /var/run/netns/" ++ cpid)] ++
      (if inc then
        [Event.cmd CmdKind.checkCall ("ln -s /" ++ pa ++ "/" ++ ROOT_NETNS ++
          "/ns/net /var/run/netns/" ++ ROOT_NETNS)]
       else []) ++
      [Event.cmd CmdKind.checkOutput "ls -l /var/run/netns",
       Event.cmd CmdKind.checkCall ("ip link add " ++ ( IF_PREFIX ++ eid.take 11) ++
         " type veth peer name " ++ ("tmp" ++ eid.take 11)),
       Event.cmd CmdKind.checkCall ("ip link set " ++ ( IF_PREFIX ++ eid.take 11) ++
         " up"),
       Event.cmd CmdKind.checkCall ("ip link set " ++ ("tmp" ++ eid.take 11) ++
         " netns " ++ cpid),
       Event.cmd CmdKind.checkOutput "ip link",
       Event.nsEnter cpid "/proc_host",
       Event.cmd CmdKind.checkCall ("ip link set dev " ++ ("tmp" ++ eid.take 11) ++
         " name " ++ vn),
       Event.cmd CmdKind.checkCall ("ip link set " ++ vn ++ " up"),
       Event.nsExit cpid] ++
      (if inc then
        [Event.cmd CmdKind.checkCall ("ip link set " ++ ( IF_PREFIX ++ eid.take 11) ++
          " netns " ++ ROOT_NETNS),
         Event.nsEnter ROOT_NETNS "/proc_host",
         Event.cmd CmdKind.checkCall ("ip link set " ++ ( IF_PREFIX ++ eid.take 11) ++
           " up"),
         Event.nsExit ROOT_NETNS]
       else []) ++
      [Event.nsEnter cpid "/proc_host",
       Event.cmd CmdKind.checkCall ("ip -" ++ toString (IPVersion.toNat v) ++
         " addr add " ++ a ++ "/" ++ toString ( PREFIX_LEN v) ++ " dev " ++ vn),
       Event.nsExit cpid,
       Event.nsEnter cpid "/proc_host",
       Event.cmd CmdKind.checkCall ("ip -" ++ toString (IPVersion.toNat v) ++
         " route replace " ++ nhp.addr ++ " dev " ++ vn),
       Event.cmd CmdKind.checkCall ("ip -" ++ toString (IPVersion.toNat v) ++
         " route replace default via " ++ nhp.addr ++ " dev " ++ vn)], ?_⟩
    rw [hrun]
    cases inc <;> simp [setUpTrace]

theorem endpoint_assembly_witness :
    (setUpResult envAllOk ⟨IPVersion.v4, "10.0.0.5"⟩ ⟨IPVersion.v4, "10.0.0.1"⟩
      "eth1" "0123456789abcdef").state = "active" ∧
    (setUpResult envAllOk ⟨IPVersion.v4, "10.0.0.5"⟩ ⟨IPVersion.v4, "10.0.0.1"⟩
      "eth1" "0123456789abcdef").mac =
      (envAllOk.out "ip link show eth1 | grep ether | awk \x27\x7bprint $2\x7d\x27").trim ∧
    (setUpResult envAllOk ⟨IPVersion.v4, "10.0.0.5"⟩ ⟨IPVersion.v4, "10.0.0.1"⟩
      "eth1" "0123456789abcdef").ipv4_nets =
      [{ version := IPVersion.v4, addr := "10.0.0.5", prefixlen := 32 }] ∧
    (setUpResult envAllOk ⟨IPVersion.v4, "10.0.0.5"⟩ ⟨IPVersion.v4, "10.0.0.1"⟩
      "eth1" "0123456789abcdef").ipv4_gateway = nhV4 4 :=
  let thm := endpoint_assembly envAllOk ⟨IPVersion.v4, "10.0.0.5"⟩ "1234" nhV4
    false "eth1" "proc_host" "0123456789abcdef"
    (setUpResult envAllOk ⟨IPVersion.v4, "10.0.0.5"⟩ ⟨IPVersion.v4, "10.0.0.1"⟩
      "eth1" "0123456789abcdef") rfl
  ⟨thm.2.1, thm.2.2.1, (thm.2.2.2.1 rfl).1, (thm.2.2.2.1 rfl).2.1⟩

/-- C5: every successful run of `set_up_endpoint` performs the veth steps in
this strict order: create the veth pair (host-side name, temporary peer name)
in the host namespace, bring the host-side end up, move the temporary peer
into the target namespace, then inside the target namespace rename the peer
to the container-visible name and bring it up; and exactly when
`in_container` is true, afterwards move the host-side end into the root
namespace and bring it up inside the root namespace's scope.  The theorem
exhibits the full ordered trace, with the two `in_container`-only blocks
present exactly when `in_container` is true. -/
theorem veth_step_order (env : Env) (ip : IPAddr) (cpid : String)
    (nh : Nat → Option IPAddr) (inc : Bool) (vn pa eid : String) (ep : Endpoint)
    (next_hop : IPAddr)
    (h : (set_up_endpoint env (PyIPArg.ipAddress ip) cpid nh inc vn pa eid).2 =
      Except.ok ep)
    (hnh : nh (IPVersion.toNat ip.version) = some next_hop) :
    (set_up_endpoint env (PyIPArg.ipAddress ip) cpid nh inc vn pa eid).1 =
      [Event.cmd CmdKind.checkCall "mkdir -p /var/run/netns",
       Event.cmd CmdKind.checkCall ("ln -s /" ++ pa ++ "/" ++ cpid ++
         "/ns/net /var/run/netns/" ++ cpid)] ++
      (if inc then
        [Event.cmd CmdKind.checkCall ("ln -s /" ++ pa ++ "/" ++ ROOT_NETNS ++
          "/ns/net /var/run/netns/" ++ ROOT_NETNS)]
       else []) ++
      [Event.cmd CmdKind.checkOutput "ls -l /var/run/netns",
       Event.cmd CmdKind.checkCall ("ip link add " ++ ( IF_PREFIX ++ eid.take 11) ++
         " type veth peer name " ++ ("tmp" ++ eid.take 11)),
       Event.cmd CmdKind.checkCall ("ip link set " ++ ( IF_PREFIX ++ eid.take 11) ++
         " up"),
       Event.cmd CmdKind.checkCall ("ip link set " ++ ("tmp" ++ eid.take 11) ++
         " netns " ++ cpid),
       Event.cmd CmdKind.checkOutput "ip link",
       Event.nsEnter cpid "/proc_host",
       Event.cmd CmdKind.checkCall ("ip link set dev " ++ ("tmp" ++ eid.take 11) ++
         " name " ++ vn),
       Event.cmd CmdKind.checkCall ("ip link set " ++ vn ++ " up"),
       Event.nsExit cpid] ++
      (if inc then
        [Event.cmd CmdKind.checkCall ("ip link set " ++ ( IF_PREFIX ++ eid.take 11) ++
          " netns " ++ ROOT_NETNS),
         Event.nsEnter ROOT_NETNS "/proc_host",
         Event.cmd CmdKind.checkCall ("ip link set " ++ ( IF_PREFIX ++ eid.take 11) ++
           " up"),
         Event.nsExit ROOT_NETNS]
       else []) ++
      [Event.nsEnter cpid "/proc_host",
       Event.cmd CmdKind.checkCall ("ip -" ++ toString (IPVersion.toNat ip.version) ++
         " addr add " ++ ip.addr ++ "/" ++ toString ( PREFIX_LEN ip.version) ++
         " dev " ++ vn),
       Event.nsExit cpid,
       Event.nsEnter cpid "/proc_host",
       Event.cmd CmdKind.checkCall ("ip -" ++ toString (IPVersion.toNat ip.version) ++
         " route replace " ++ next_hop.addr ++ " dev " ++ vn),
       Event.cmd CmdKind.checkCall ("ip -" ++ toString (IPVersion.toNat ip.version) ++
         " route replace default via " ++ next_hop.addr ++ " dev " ++ vn),
       Event.cmd CmdKind.checkOutput ("ip link show " ++ vn ++
         " | grep ether | awk \x27\x7bprint $2\x7d\x27"),
       Event.nsExit cpid] := by
  obtain ⟨nhp, hnh2, hrun, hmem⟩ := setUp_ok_run env ip cpid nh inc vn pa eid ep h
  rw [hnh] at hnh2
  have heq : next_hop = nhp := (Option.some.injEq _ _).mp hnh2
  subst heq
  rw [hrun]
  cases inc <;> simp [setUpTrace]

theorem veth_step_order_witness :
    (set_up_endpoint envAllOk (PyIPArg.ipAddress ⟨IPVersion.v4, "10.0.0.5"⟩)
      "1234" nhV4 false "eth1" "proc_host" "0123456789abcdef").1 =
      [Event.cmd CmdKind.checkCall "mkdir -p /var/run/netns",
       Event.cmd CmdKind.checkCall "ln -s /proc_host/1234/ns/net /var/run/netns/1234",
       Event.cmd CmdKind.checkOutput "ls -l /var/run/netns",
       Event.cmd CmdKind.checkCall
         "ip link add cali0123456789a type veth peer name tmp0123456789a",
       Event.cmd CmdKind.checkCall "ip link set cali0123456789a up",
       Event.cmd CmdKind.checkCall "ip link set tmp0123456789a netns 1234",
       Event.cmd CmdKind.checkOutput "ip link",
       Event.nsEnter "1234" "/proc_host",
       Event.cmd CmdKind.checkCall "ip link set dev tmp0123456789a name eth1",
       Event.cmd CmdKind.checkCall "ip link set eth1 up",
       Event.nsExit "1234",
       Event.nsEnter "1234" "/proc_host",
       Event.cmd CmdKind.checkCall "ip -4 addr add 10.0.0.5/32 dev eth1",
       Event.nsExit "1234",
       Event.nsEnter "1234" "/proc_host",
       Event.cmd CmdKind.checkCall "ip -4 route replace 10.0.0.1 dev eth1",
       Event.cmd CmdKind.checkCall "ip -4 route replace default via 10.0.0.1 dev eth1",
       Event.cmd CmdKind.checkOutput
         "ip link show eth1 | grep ether | awk \x27\x7bprint $2\x7d\x27",
       Event.nsExit "1234"] :=
  veth_step_order envAllOk ⟨IPVersion.v4, "10.0.0.5"⟩ "1234" nhV4 false "eth1"
    "proc_host" "0123456789abcdef"
    (setUpResult envAllOk ⟨IPVersion.v4, "10.0.0.5"⟩ ⟨IPVersion.v4, "10.0.0.1"⟩
      "eth1" "0123456789abcdef")
    ⟨IPVersion.v4, "10.0.0.1"⟩ rfl rfl

/-- C9: for every endpoint created by a successful `set_up_endpoint` run,
`remove_endpoint` applied to that endpoint's identifier issues a delete for
exactly the host-side interface name that `set_up_endpoint` derived when it
created the veth pair: the fixed prefix concatenated with the first 11
characters of the identifier. -/
theorem remove_matches_created_iface (env env2 : Env) (ip : IPAddr)
    (cpid : String) (nh : Nat → Option IPAddr) (inc : Bool) (vn pa eid : String)
    (ep : Endpoint)
    (h : (set_up_endpoint env (PyIPArg.ipAddress ip) cpid nh inc vn pa eid).2 =
      Except.ok ep) :
    remove_endpoint env2 ep.ep_id =
      ([Event.cmd CmdKind.call ("ip link delete " ++ ( IF_PREFIX ++ eid.take 11))],
       Except.ok ()) ∧
    Event.cmd CmdKind.checkCall ("ip link add " ++ ( IF_PREFIX ++ eid.take 11) ++
      " type veth peer name " ++ ("tmp" ++ eid.take 11)) ∈
      (set_up_endpoint env (PyIPArg.ipAddress ip) cpid nh inc vn pa eid).1 := by
  obtain ⟨v, a⟩ := ip
  obtain ⟨nhp, hnh, hrun, hmem⟩ := setUp_ok_run env ⟨v, a⟩ cpid nh inc vn pa eid ep h
  have hep : ep = setUpResult env ⟨v, a⟩ nhp vn eid := by
    rw [hrun] at h
    exact ((Except.ok.injEq _ _).mp h).symm
  subst hep
  constructor
  · cases v <;> simp [setUpResult, remove_endpoint, call]
  · rw [hrun]
    cases inc <;> simp [setUpTrace]

theorem remove_matches_created_iface_witness :
    remove_endpoint envAllOk
      (setUpResult envAllOk ⟨IPVersion.v4, "10.0.0.5"⟩ ⟨IPVersion.v4, "10.0.0.1"⟩
        "eth1" "0123456789abcdef").ep_id =
      ([Event.cmd CmdKind.call "ip link delete cali0123456789a"], Except.ok ()) ∧
    Event.cmd CmdKind.checkCall
      "ip link add cali0123456789a type veth peer name tmp0123456789a" ∈
      (set_up_endpoint envAllOk (PyIPArg.ipAddress ⟨IPVersion.v4, "10.0.0.5"⟩)
        "1234" nhV4 false "eth1" "proc_host" "0123456789abcdef").1 :=
  remove_matches_created_iface envAllOk envAllOk ⟨IPVersion.v4, "10.0.0.5"⟩ "1234"
    nhV4 false "eth1" "proc_host" "0123456789abcdef"
    (setUpResult envAllOk ⟨IPVersion.v4, "10.0.0.5"⟩ ⟨IPVersion.v4, "10.0.0.1"⟩
      "eth1" "0123456789abcdef") rfl

/-- C10: namespace switching never reads the caller-supplied `proc_alias`:
every namespace entry performed by `set_up_endpoint` — and by
`add_ip_to_interface` / `remove_ip_from_interface`, which take no alias at
all — uses the fixed proc root "/proc_host"; and for two successful
`set_up_endpoint` runs differing only in `proc_alias`, the namespace entries
are identical, the traces have the same length and first event, and they
agree event-for-event beyond the registry-symlink block of steps 3 and 4 —
so `proc_alias` influences only the targets of the registry symbolic links. -/
theorem proc_alias_only_affects_links :
    (∀ (env : Env) (ipArg : PyIPArg) (cpid : String) (nh : Nat → Option IPAddr)
       (inc : Bool) (vn pa eid p q : String),
      Event.nsEnter p q ∈ (set_up_endpoint env ipArg cpid nh inc vn pa eid).1 →
      q = "/proc_host") ∧
    (∀ (env : Env) (cpid : String) (ip : IPAddr) (ifn p q : String),
      (Event.nsEnter p q ∈ (add_ip_to_interface env cpid ip ifn).1 →
        q = "/proc_host") ∧
      (Event.nsEnter p q ∈ (remove_ip_from_interface env cpid ip ifn).1 →
        q = "/proc_host")) ∧
    (∀ (env : Env) (ip : IPAddr) (cpid : String) (nh : Nat → Option IPAddr)
       (inc : Bool) (vn pa1 pa2 eid : String) (ep1 ep2 : Endpoint),
      (set_up_endpoint env (PyIPArg.ipAddress ip) cpid nh inc vn pa1 eid).2 =
        Except.ok ep1 →
      (set_up_endpoint env (PyIPArg.ipAddress ip) cpid nh inc vn pa2 eid).2 =
        Except.ok ep2 →
      List.filter isNsEnter
          (set_up_endpoint env (PyIPArg.ipAddress ip) cpid nh inc vn pa1 eid).1 =
        List.filter isNsEnter
          (set_up_endpoint env (PyIPArg.ipAddress ip) cpid nh inc vn pa2 eid).1 ∧
      (set_up_endpoint env (PyIPArg.ipAddress ip) cpid nh inc vn pa1 eid).1.head? =
        (set_up_endpoint env (PyIPArg.ipAddress ip) cpid nh inc vn pa2 eid).1.head? ∧
      (set_up_endpoint env (PyIPArg.ipAddress ip) cpid nh inc vn pa1 eid).1.drop
          (if inc then 3 else 2) =
        (set_up_endpoint env (PyIPArg.ipAddress ip) cpid nh inc vn pa2 eid).1.drop
          (if inc then 3 else 2) ∧
      (set_up_endpoint env (PyIPArg.ipAddress ip) cpid nh inc vn pa1 eid).1.length =
        (set_up_endpoint env (PyIPArg.ipAddress ip) cpid nh inc vn pa2 eid).1.length) := by
  refine ⟨?_, ?_, ?_⟩
  · intro env ipArg cpid nh inc vn pa eid p q hq
    exact setUp_TraceProcOnly env ipArg cpid nh inc vn pa eid p q hq
  · intro env cpid ip ifn p q
    exact ⟨fun hq => tp_add_ip p q hq,
           fun hq => tp_withNamespace tp_check_call p q hq⟩
  · intro env ip cpid nh inc vn pa1 pa2 eid ep1 ep2 h1 h2
    obtain ⟨nhp1, hnh1, hrun1, hmem1⟩ :=
      setUp_ok_run env ip cpid nh inc vn pa1 eid ep1 h1
    obtain ⟨nhp2, hnh2, hrun2, hmem2⟩ :=
      setUp_ok_run env ip cpid nh inc vn pa2 eid ep2 h2
    rw [hnh1] at hnh2
    have heq : nhp1 = nhp2 := (Option.some.injEq _ _).mp hnh2
    subst heq
    rw [hrun1, hrun2]
    cases inc <;> exact ⟨rfl, rfl, rfl, rfl⟩

theorem proc_alias_only_affects_links_witness :
    List.filter isNsEnter
        (set_up_endpoint envAllOk (PyIPArg.ipAddress ⟨IPVersion.v4, "10.0.0.5"⟩)
          "1234" nhV4 false "eth1" "proc_host" "0123456789abcdef").1 =
      List.filter isNsEnter
        (set_up_endpoint envAllOk (PyIPArg.ipAddress ⟨IPVersion.v4, "10.0.0.5"⟩)
          "1234" nhV4 false "eth1" "host_proc" "0123456789abcdef").1 ∧
    (set_up_endpoint envAllOk (PyIPArg.ipAddress ⟨IPVersion.v4, "10.0.0.5"⟩)
        "1234" nhV4 false "eth1" "proc_host" "0123456789abcdef").1.length =
      (set_up_endpoint envAllOk (PyIPArg.ipAddress ⟨IPVersion.v4, "10.0.0.5"⟩)
        "1234" nhV4 false "eth1" "host_proc" "0123456789abcdef").1.length :=
  let thm := proc_alias_only_affects_links.2.2 envAllOk ⟨IPVersion.v4, "10.0.0.5"⟩
    "1234" nhV4 false "eth1" "proc_host" "host_proc" "0123456789abcdef"
    (setUpResult envAllOk ⟨IPVersion.v4, "10.0.0.5"⟩ ⟨IPVersion.v4, "10.0.0.1"⟩
      "eth1" "0123456789abcdef")
    (setUpResult envAllOk ⟨IPVersion.v4, "10.0.0.5"⟩ ⟨IPVersion.v4, "10.0.0.1"⟩
      "eth1" "0123456789abcdef") rfl rfl
  ⟨thm.1, thm.2.2.2⟩
